import Mathlib

/-
  Shallow embedding of the 6502/2A03 CPU core from src/src/cpu/ (Rust).

  Machine integers are modeled as Nat (or Int for signed intermediates),
  with `% 256` where the source's u8 type truncates, `% 65536` where the
  source's u16 type truncates, and `Int.emod` for the two's-complement
  casts (`as u8`, `as i8`).  Rust's plain `+`/`+=` on u16 is modeled with
  its wrapping (two's-complement) semantics.  Code paths that panic in
  the source (`todo!()`, unknown opcode, missing operand) are modeled
  with Option, `none` standing for the panic.
-/

/-- Constants from src/src/cpu/memory.rs. -/
def MEMORY_SIZE : Nat := 0x10000

/-- `pub const STACK: u16 = 0x00FD;` (memory.rs line 5). -/
def STACK : Nat := 0x00FD

/-- `pub const RESET: u16 = 0xFFFC;` (memory.rs line 6). -/
def RESET : Nat := 0xFFFC

/-- `pub const INTERRUPT: u16 = 0xFFFE;` (memory.rs line 7). -/
def INTERRUPT : Nat := 0xFFFE

/-- The 64 KiB memory array (`Memory([u8; MEMORY_SIZE])`), modeled as a
function from addresses to byte values. -/
def Memory : Type := Nat → Nat

/-- `impl MemoryValue for u8 : read_from_memory`: read one byte.  The
`% 256` reflects that the array cells have type u8. -/
def Memory.read8 (m : Memory) (addr : Nat) : Nat :=
  m addr % 256

/-- `impl MemoryValue for u16 : read_from_memory`: `u16::from_le_bytes`
of the two consecutive bytes at `addr`, `addr + 1` (usize indexing, no
16-bit wrap between the two bytes).  The source slices
`memory.0[addr..addr + 2]`, which PANICS when `addr + 2 > MEMORY_SIZE` —
that is, at `addr = 0xFFFF`, where this total function instead reads the
phantom cell 0x10000.  It therefore stands for the source only at
addresses at most 0xFFFE (the reset vector 0xFFFC, the interrupt vector
0xFFFE, stack addresses below 0x100, and the concrete in-bounds fetches
of the step theorems); `Memory.read16_checked` below models the panic
for the 16-bit program-counter fetch, which can reach 0xFFFF. -/
def Memory.read16 (m : Memory) (addr : Nat) : Nat :=
  m addr % 256 + 256 * (m (addr + 1) % 256)

/-- `impl MemoryValue for u16 : read_from_memory` with the out-of-bounds
panic modeled: the slice `memory.0[addr..addr + 2]` of the 65536-byte
array requires `addr + 2 ≤ MEMORY_SIZE`; otherwise the source panics in
every build mode (`none`). -/
def Memory.read16_checked (m : Memory) (addr : Nat) : Option Nat :=
  if addr + 2 ≤ MEMORY_SIZE then some (Memory.read16 m addr) else none

/-- `impl MemoryValue for u8 : write_to_memory`: store one byte. -/
def Memory.write8 (m : Memory) (addr val : Nat) : Memory :=
  fun a => if a = addr then val % 256 else m a

/-- `impl MemoryValue for u16 : write_to_memory`: store
`val.to_le_bytes()` at `addr` (low byte) and `addr + 1` (high byte). -/
def Memory.write16 (m : Memory) (addr val : Nat) : Memory :=
  fun a =>
    if a = addr then val % 256
    else if a = addr + 1 then val / 256 % 256
    else m a

/-- `Memory::load`: copy the program bytes to `program_rom ..`, then
write the origin into the reset vector (`self.write(RESET, program_rom)`). -/
def Memory.load (m : Memory) (program : List Nat) (program_rom : Nat) : Memory :=
  Memory.write16
    (fun a =>
      if program_rom ≤ a ∧ a < program_rom + program.length then
        program.getD (a - program_rom) 0 % 256
      else m a)
    RESET program_rom

/-- `pub enum Mode { Mos6502, Nes2A03 }` (mode.rs). -/
inductive Mode where
  | Mos6502
  | Nes2A03
  deriving DecidableEq

/-- `Mode::program_rom` (mode.rs lines 14-19). -/
def Mode.program_rom : Mode → Nat
  | .Mos6502 => 0x0600
  | .Nes2A03 => 0x8000

/-- `impl Default for Mode` returns `Self::Nes2A03` (mode.rs lines 7-11). -/
def Mode.default : Mode := Mode.Nes2A03

/-- The status register (status.rs): eight independent flag bits of the
`#[bitmask(u8)] enum Status`, one field per bit.  Bit weights follow the
declaration order: Carry = 0x01, Zero = 0x02, InterruptDisable = 0x04,
Decimal = 0x08, Break = 0x10, Break2 = 0x20, Overflow = 0x40,
Negative = 0x80. -/
structure Status where
  carry : Bool
  zero : Bool
  interrupt_disable : Bool
  decimal : Bool
  break_flag : Bool
  break2 : Bool
  overflow : Bool
  negative : Bool
  deriving DecidableEq

/-- `impl Default for Status`: `InterruptDisable | Break | Break2`. -/
def Status.default : Status :=
  ⟨false, false, true, false, true, true, false, false⟩

/-- `Status::bits()`: the packed u8 value of the flag register. -/
def Status.bits (s : Status) : Nat :=
  (if s.carry then 1 else 0) + (if s.zero then 2 else 0) +
  (if s.interrupt_disable then 4 else 0) + (if s.decimal then 8 else 0) +
  (if s.break_flag then 16 else 0) + (if s.break2 then 32 else 0) +
  (if s.overflow then 64 else 0) + (if s.negative then 128 else 0)

/-- `Status::set_carry` (status.rs lines 41-43): Carry iff the 16-bit
intermediate result exceeds 0xff. -/
def Status.set_carry (s : Status) (result : Nat) : Status :=
  { s with carry := decide (result > 0xff) }

/-- `Status::set_negative` (status.rs lines 46-48): Negative iff bit 7 of
the result is set. -/
def Status.set_negative (s : Status) (result : Nat) : Status :=
  { s with negative := decide (result &&& 0b10000000 ≠ 0) }

/-- `Status::set_overflow` (status.rs lines 50-52). -/
def Status.set_overflow (s : Status) (result : Bool) : Status :=
  { s with overflow := result }

/-- `Status::set_zero` (status.rs lines 55-57): Zero iff the result is 0. -/
def Status.set_zero (s : Status) (result : Nat) : Status :=
  { s with zero := decide (result = 0) }

/-- `StackPointer::advance` (mod.rs lines 42-44):
`self.0 = (self.0 as i16 + offset) as u8`; the i16 → u8 cast keeps the
low 8 bits of the two's-complement value. -/
def StackPointer.advance (sp : Nat) (offset : Int) : Nat :=
  (((sp : Int) + offset) % 256).toNat

/-- The CPU state (mod.rs lines 49-58).  The stack pointer is the u8
payload of the `StackPointer` newtype. -/
structure CPU where
  accumulator : Nat
  index_x : Nat
  index_y : Nat
  program_counter : Nat
  stack_pointer : Nat
  status : Status
  memory : Memory
  mode : Mode

/-- `impl Default for CPU` (derived): zeroed registers, stack pointer
`STACK as u8` = 0xFD, default status and mode, zeroed memory. -/
def CPU.default : CPU :=
  { accumulator := 0
    index_x := 0
    index_y := 0
    program_counter := 0
    stack_pointer := STACK % 256
    status := Status.default
    memory := fun _ => 0
    mode := Mode.default }

/-- `CPU::reset` (mod.rs lines 81-87): rebuild the CPU from
`Default::default()`, keeping only the memory and loading the program
counter from the reset vector. -/
def CPU.reset (cpu : CPU) : CPU :=
  { CPU.default with
    program_counter := Memory.read16 cpu.memory RESET
    memory := cpu.memory }

/-- `CPU::load` (mod.rs lines 74-76): `self.memory.load(program, self.mode)`. -/
def CPU.load (cpu : CPU) (program : List Nat) : CPU :=
  { cpu with memory := Memory.load cpu.memory program cpu.mode.program_rom }

/-- `CPU::set_status_negative_zero` (mod.rs lines 291-294). -/
def CPU.set_status_negative_zero (cpu : CPU) (value : Nat) : CPU :=
  { cpu with status := (cpu.status.set_negative value).set_zero value }

/-- `CPU::set_accumulator` (mod.rs lines 271-274). -/
def CPU.set_accumulator (cpu : CPU) (value : Nat) : CPU :=
  { cpu with accumulator := value }.set_status_negative_zero value

/-- `CPU::set_index_x` (mod.rs lines 278-281). -/
def CPU.set_index_x (cpu : CPU) (value : Nat) : CPU :=
  { cpu with index_x := value }.set_status_negative_zero value

/-- `CPU::set_index_y` (mod.rs lines 285-288). -/
def CPU.set_index_y (cpu : CPU) (value : Nat) : CPU :=
  { cpu with index_y := value }.set_status_negative_zero value

/-- `CPU::add_to_accumulator` (mod.rs lines 169-185): 16-bit sum of
accumulator, operand and carry-in; Carry from the sum; result is the sum
truncated to u8; Overflow from the signed-overflow bit test computed
against the still-unchanged accumulator; finally `set_accumulator`. -/
def CPU.add_to_accumulator (cpu : CPU) (value : Nat) : CPU :=
  let sum := cpu.accumulator + value + (if cpu.status.carry then 1 else 0)
  let cpu1 := { cpu with status := cpu.status.set_carry sum }
  let result := sum % 256
  let cpu2 :=
    { cpu1 with
      status := cpu1.status.set_overflow
        (decide ((value ^^^ result) &&& (result ^^^ cpu1.accumulator) &&& 0x80 ≠ 0)) }
  cpu2.set_accumulator result

/-- `CPU::adc` (mod.rs lines 332-334). -/
def CPU.adc (cpu : CPU) (addr : Nat) : CPU :=
  cpu.add_to_accumulator (Memory.read8 cpu.memory addr)

/-- `CPU::sbc` (mod.rs lines 579-585):
`(self.memory.read::<u8>(addr) as i8).wrapping_neg().wrapping_sub(1) as u8`.
The u8 → i8 reinterpretation and both wrapping operations are congruent
mod 256, and the final `as u8` cast keeps the low 8 bits, so the operand
fed to the shared ADC path is the low 8 bits of `-v - 1`. -/
def CPU.sbc (cpu : CPU) (addr : Nat) : CPU :=
  cpu.add_to_accumulator
    (((-(Memory.read8 cpu.memory addr : Int) - 1) % 256).toNat)

/-- Claim-side operand for SBC, written from the spec's words: "the
two's-complement of (operand + 1)". -/
def spec_sbc_operand (v : Nat) : Nat :=
  (256 - (v + 1) % 256) % 256

set_option maxRecDepth 4096 in
/-- Bit 7 of a byte is set exactly when the byte is at least 128. -/
lemma and_bit7_iff : ∀ r < 256, ((r &&& 0b10000000 ≠ 0) ↔ 128 ≤ r) := by decide

/-- The operand actually fed to the ADC path by `CPU::sbc` equals the
spec's "two's-complement of (operand + 1)". -/
lemma sbc_operand_eq (v : Nat) (hv : v < 256) :
    ((-(v : Int) - 1) % 256).toNat = spec_sbc_operand v := by
  have h2 : (-(v : Int) - 1 + 256 * 1) % 256 = (-(v : Int) - 1) % 256 :=
    Int.add_mul_emod_self_left (-(v : Int) - 1) 256 1
  have h3 : (-(v : Int) - 1 + 256 * 1) = 255 - v := by ring
  have h4 : ((255 - (v : Int)) % 256) = 255 - v := by
    apply Int.emod_eq_of_lt <;> omega
  rw [h3, h4] at h2
  rw [← h2]
  unfold spec_sbc_operand
  omega

/-- Claim C5: ADC computes the 16-bit sum accumulator + operand + carry-in,
sets Carry iff the sum exceeds 255, stores the low 8 bits in the
accumulator, sets Overflow iff ((operand ^ result) & (result ^ old
accumulator) & 0x80) != 0, and sets Zero and Negative from the result
(Zero iff the result is 0, Negative iff its bit 7, i.e. result ≥ 128). -/
theorem adc_spec (cpu : CPU) (addr : Nat) :
    let v := Memory.read8 cpu.memory addr
    let c := if cpu.status.carry then 1 else 0
    let sum := cpu.accumulator + v + c
    let result := sum % 256
    (cpu.adc addr).accumulator = result ∧
    ((cpu.adc addr).status.carry = true ↔ sum > 255) ∧
    ((cpu.adc addr).status.overflow = true ↔
      (v ^^^ result) &&& (result ^^^ cpu.accumulator) &&& 0x80 ≠ 0) ∧
    ((cpu.adc addr).status.zero = true ↔ result = 0) ∧
    ((cpu.adc addr).status.negative = true ↔ 128 ≤ result) := by
  have hlt : Memory.read8 cpu.memory addr < 256 := Nat.mod_lt _ (by decide)
  intro v c sum result
  have hr : result < 256 := Nat.mod_lt _ (by decide)
  refine ⟨rfl, ?_, ?_, ?_, ?_⟩
  · simp [CPU.adc, CPU.add_to_accumulator, CPU.set_accumulator,
      CPU.set_status_negative_zero, Status.set_carry, Status.set_overflow,
      Status.set_negative, Status.set_zero]
  · simp [CPU.adc, CPU.add_to_accumulator, CPU.set_accumulator,
      CPU.set_status_negative_zero, Status.set_carry, Status.set_overflow,
      Status.set_negative, Status.set_zero]
  · simp [CPU.adc, CPU.add_to_accumulator, CPU.set_accumulator,
      CPU.set_status_negative_zero, Status.set_carry, Status.set_overflow,
      Status.set_negative, Status.set_zero]
  · have := and_bit7_iff result hr
    simp [CPU.adc, CPU.add_to_accumulator, CPU.set_accumulator,
      CPU.set_status_negative_zero, Status.set_carry, Status.set_overflow,
      Status.set_negative, Status.set_zero]
    exact this

/-- Claim C6: SBC is the ADC transition with the operand byte replaced by
the two's-complement of (operand + 1); it produces exactly the state the
shared addition path produces on that substituted operand. -/
theorem sbc_refines_adc (cpu : CPU) (addr : Nat) :
    cpu.sbc addr =
      cpu.add_to_accumulator (spec_sbc_operand (Memory.read8 cpu.memory addr)) := by
  have hlt : Memory.read8 cpu.memory addr < 256 := Nat.mod_lt _ (by decide)
  unfold CPU.sbc
  rw [sbc_operand_eq _ hlt]

/-- `CPU::stack_push` instantiated at u8 (mod.rs lines 307-310): write at
the physical address `self.stack_pointer.into()` — the zero-extended
pointer value itself (`impl Into<u16> for StackPointer`, mod.rs lines
34-38, adds no 0x0100 offset) — then advance by 1. -/
def CPU.stack_push8 (cpu : CPU) (value : Nat) : CPU :=
  { cpu with
    memory := Memory.write8 cpu.memory cpu.stack_pointer value
    stack_pointer := StackPointer.advance cpu.stack_pointer 1 }

/-- `CPU::stack_push` instantiated at u16: write both bytes starting at
the zero-extended pointer value, then advance by 2. -/
def CPU.stack_push16 (cpu : CPU) (value : Nat) : CPU :=
  { cpu with
    memory := Memory.write16 cpu.memory cpu.stack_pointer value
    stack_pointer := StackPointer.advance cpu.stack_pointer 2 }

/-- `CPU::stack_pop` instantiated at u8 (mod.rs lines 299-303): retreat
the pointer by 1, then read at the zero-extended pointer value. -/
def CPU.stack_pop8 (cpu : CPU) : Nat × CPU :=
  let sp := StackPointer.advance cpu.stack_pointer (-1)
  (Memory.read8 cpu.memory sp, { cpu with stack_pointer := sp })

/-- `CPU::stack_pop` instantiated at u16: retreat by 2, then read both
bytes. -/
def CPU.stack_pop16 (cpu : CPU) : Nat × CPU :=
  let sp := StackPointer.advance cpu.stack_pointer (-2)
  (Memory.read16 cpu.memory sp, { cpu with stack_pointer := sp })

/-- Advancing the stack pointer by `w` and then by `-w` restores it. -/
lemma advance_advance_neg (sp : Nat) (hsp : sp < 256) (w : Int) :
    StackPointer.advance (StackPointer.advance sp w) (-w) = sp := by
  unfold StackPointer.advance
  have h1 : 0 ≤ ((sp : Int) + w) % 256 := Int.emod_nonneg _ (by norm_num)
  rw [Int.toNat_of_nonneg h1]
  have h3 : (((sp : Int) + w) % 256 + -w) % 256 = ((sp : Int) + w + -w) % 256 :=
    Int.emod_add_emod ((sp : Int) + w) 256 (-w)
  have h4 : ((sp : Int) + w + -w) = (sp : Int) := by ring
  rw [h3, h4]
  omega

/-- The stack pointer stays below 256 after any advance. -/
lemma advance_lt (sp : Nat) (w : Int) : StackPointer.advance sp w < 256 := by
  unfold StackPointer.advance
  have h1 : 0 ≤ ((sp : Int) + w) % 256 := Int.emod_nonneg _ (by norm_num)
  have h2 : ((sp : Int) + w) % 256 < 256 := Int.emod_lt_of_pos _ (by norm_num)
  omega

/-- Claim C8: for every CPU state and stack-pointer value (wrap included),
pushing an 8-bit or a 16-bit value and then popping the same width
returns the pushed value and restores the stack pointer. -/
theorem stack_push_pop_inverse (cpu : CPU) (v8 v16 : Nat)
    (hsp : cpu.stack_pointer < 256) (h8 : v8 < 256) (h16 : v16 < 65536) :
    ((cpu.stack_push8 v8).stack_pop8).1 = v8 ∧
    ((cpu.stack_push8 v8).stack_pop8).2.stack_pointer = cpu.stack_pointer ∧
    ((cpu.stack_push16 v16).stack_pop16).1 = v16 ∧
    ((cpu.stack_push16 v16).stack_pop16).2.stack_pointer = cpu.stack_pointer := by
  have r1 := advance_advance_neg cpu.stack_pointer hsp 1
  have r2 := advance_advance_neg cpu.stack_pointer hsp 2
  refine ⟨?_, ?_, ?_, ?_⟩
  · simp only [CPU.stack_push8, CPU.stack_pop8, r1]
    simp [Memory.read8, Memory.write8]
    omega
  · simp only [CPU.stack_push8, CPU.stack_pop8, r1]
  · simp only [CPU.stack_push16, CPU.stack_pop16, r2]
    have hne : cpu.stack_pointer + 1 ≠ cpu.stack_pointer := by omega
    simp [Memory.read16, Memory.write16, hne]
    omega
  · simp only [CPU.stack_push16, CPU.stack_pop16, r2]

/-- Witness for C8 at a concrete state: pushing 0x42 (8-bit) and 0x1234
(16-bit) onto the default CPU's stack and popping returns the values and
restores the pointer. -/
theorem stack_push_pop_inverse_witness :
    ((CPU.default.stack_push8 0x42).stack_pop8).1 = 0x42 ∧
    ((CPU.default.stack_push16 0x1234).stack_pop16).1 = 0x1234 ∧
    ((CPU.default.stack_push16 0x1234).stack_pop16).2.stack_pointer =
      CPU.default.stack_pointer :=
  ⟨(stack_push_pop_inverse CPU.default 0x42 0x1234 (by decide) (by decide)
      (by decide)).1,
   (stack_push_pop_inverse CPU.default 0x42 0x1234 (by decide) (by decide)
      (by decide)).2.2.1,
   (stack_push_pop_inverse CPU.default 0x42 0x1234 (by decide) (by decide)
      (by decide)).2.2.2⟩

/-- Claim C4 counterexample: on the default CPU (stack pointer 0xFD),
pushing 0x42 leaves address 0x0100 + 0xFD = 0x01FD untouched (still 0)
and instead writes 0x42 at the zero-page address 0x00FD, so stack writes
do not land at 0x0100 + stack pointer. -/
theorem stack_push_not_in_stack_page :
    (CPU.default.stack_push8 0x42).memory (0x0100 + CPU.default.stack_pointer) = 0 ∧
    (CPU.default.stack_push8 0x42).memory CPU.default.stack_pointer = 0x42 ∧
    CPU.default.stack_pointer = 0xFD := by
  decide

/-- Claim C4 as amended: every stack push writes its bytes starting at
the physical address equal to the stack pointer's zero-extended value
itself (no 0x0100 offset), every pop reads from that value after the
retreat, and these addresses are always below 0x0100 — in or adjacent to
the zero page, never computed as 0x0100 + pointer. -/
theorem stack_ops_at_pointer_value (cpu : CPU) (v w : Nat)
    (hsp : cpu.stack_pointer < 256) (hv : v < 256) (hw : w < 65536) :
    (cpu.stack_push8 v).memory cpu.stack_pointer = v ∧
    (cpu.stack_push16 w).memory cpu.stack_pointer = w % 256 ∧
    (cpu.stack_push16 w).memory (cpu.stack_pointer + 1) = w / 256 ∧
    (cpu.stack_pop8).1 =
      Memory.read8 cpu.memory (StackPointer.advance cpu.stack_pointer (-1)) ∧
    cpu.stack_pointer < 0x0100 ∧
    StackPointer.advance cpu.stack_pointer (-1) < 0x0100 := by
  refine ⟨?_, ?_, ?_, rfl, hsp, advance_lt _ _⟩
  · simp [CPU.stack_push8, Memory.write8]
    omega
  · simp [CPU.stack_push16, Memory.write16]
  · have hne : cpu.stack_pointer + 1 ≠ cpu.stack_pointer := by omega
    simp [CPU.stack_push16, Memory.write16, hne]
    omega

/-- Witness for the amended C4 at a concrete state: on the default CPU,
an 8-bit push lands at 0x00FD and a 16-bit push at 0x00FD/0x00FE. -/
theorem stack_ops_at_pointer_value_witness :
    (CPU.default.stack_push8 0x42).memory CPU.default.stack_pointer = 0x42 ∧
    (CPU.default.stack_push16 0x1234).memory CPU.default.stack_pointer = 0x34 ∧
    (CPU.default.stack_push16 0x1234).memory (CPU.default.stack_pointer + 1) = 0x12 ∧
    CPU.default.stack_pointer < 0x0100 :=
  ⟨(stack_ops_at_pointer_value CPU.default 0x42 0x1234 (by decide) (by decide)
      (by decide)).1,
   (stack_ops_at_pointer_value CPU.default 0x42 0x1234 (by decide) (by decide)
      (by decide)).2.1,
   (stack_ops_at_pointer_value CPU.default 0x42 0x1234 (by decide) (by decide)
      (by decide)).2.2.1,
   (stack_ops_at_pointer_value CPU.default 0x42 0x1234 (by decide) (by decide)
      (by decide)).2.2.2.2.1⟩

/-- `pub enum Instruction` (instructions.rs lines 2-115): the 56 6502
mnemonics. -/
inductive Instruction where
  | ADC | AND | ASL | BCC | BCS | BEQ | BIT | BMI | BNE | BPL | BRK | BVC | BVS
  | CLC | CLD | CLI | CLV | CMP | CPX | CPY | DEC | DEX | DEY | EOR | INC | INX
  | INY | JMP | JSR | LDA | LDX | LDY | LSR | NOP | ORA | PHA | PHP | PLA | PLP
  | ROL | ROR | RTI | RTS | SBC | SEC | SED | SEI | STA | STX | STY | TAX | TAY
  | TSX | TXA | TXS | TYA
  deriving DecidableEq

/-- `pub enum AddressingMode` (opcodes.rs lines 7-20). -/
inductive AddressingMode where
  | Immediate | ZeroPage | ZeroPageX | ZeroPageY
  | Absolute | AbsoluteX | AbsoluteY
  | Indirect | IndirectX | IndirectY
  | Relative | NoneAddressing
  deriving DecidableEq

/-- `pub struct OpCode` (opcodes.rs lines 23-29). -/
structure OpCode where
  code : Nat
  instruction : Instruction
  len : Nat
  cycles : Nat
  mode : AddressingMode
  deriving DecidableEq

/-- Entries of `CPU_OPS_CODES` (opcodes.rs lines 44-216), part 1,
in source order. -/
def opcodes_part1 : List OpCode := [
  ⟨0x69, .ADC, 2, 2, .Immediate⟩, ⟨0x65, .ADC, 2, 3, .ZeroPage⟩,
  ⟨0x75, .ADC, 2, 4, .ZeroPageX⟩, ⟨0x6d, .ADC, 3, 4, .Absolute⟩,
  ⟨0x7d, .ADC, 3, 4, .AbsoluteX⟩, ⟨0x79, .ADC, 3, 4, .AbsoluteY⟩,
  ⟨0x61, .ADC, 2, 6, .IndirectX⟩, ⟨0x71, .ADC, 2, 5, .IndirectY⟩,
  ⟨0x29, .AND, 2, 2, .Immediate⟩, ⟨0x25, .AND, 2, 3, .ZeroPage⟩,
  ⟨0x35, .AND, 2, 4, .ZeroPageX⟩, ⟨0x2d, .AND, 3, 4, .Absolute⟩,
  ⟨0x3d, .AND, 3, 4, .AbsoluteX⟩, ⟨0x39, .AND, 3, 4, .AbsoluteY⟩,
  ⟨0x21, .AND, 2, 6, .IndirectX⟩, ⟨0x31, .AND, 2, 5, .IndirectY⟩,
  ⟨0x0a, .ASL, 1, 2, .NoneAddressing⟩, ⟨0x06, .ASL, 2, 5, .ZeroPage⟩,
  ⟨0x16, .ASL, 2, 6, .ZeroPageX⟩, ⟨0x0e, .ASL, 3, 6, .Absolute⟩]

/-- Entries of `CPU_OPS_CODES` (opcodes.rs lines 44-216), part 2,
in source order. -/
def opcodes_part2 : List OpCode := [
  ⟨0x1e, .ASL, 3, 7, .AbsoluteX⟩, ⟨0x90, .BCC, 2, 2, .Relative⟩,
  ⟨0xb0, .BCS, 2, 2, .Relative⟩, ⟨0xf0, .BEQ, 2, 2, .Relative⟩,
  ⟨0x30, .BMI, 2, 2, .Relative⟩, ⟨0xd0, .BNE, 2, 2, .Relative⟩,
  ⟨0x10, .BPL, 2, 2, .Relative⟩, ⟨0x50, .BVC, 2, 2, .Relative⟩,
  ⟨0x70, .BVS, 2, 2, .Relative⟩, ⟨0x24, .BIT, 2, 3, .ZeroPage⟩,
  ⟨0x2c, .BIT, 3, 4, .Absolute⟩, ⟨0x00, .BRK, 1, 7, .NoneAddressing⟩,
  ⟨0x18, .CLC, 1, 2, .NoneAddressing⟩, ⟨0xd8, .CLD, 1, 2, .NoneAddressing⟩,
  ⟨0x58, .CLI, 1, 2, .NoneAddressing⟩, ⟨0xb8, .CLV, 1, 2, .NoneAddressing⟩,
  ⟨0xc9, .CMP, 2, 2, .Immediate⟩, ⟨0xc5, .CMP, 2, 3, .ZeroPage⟩,
  ⟨0xd5, .CMP, 2, 4, .ZeroPageX⟩, ⟨0xcd, .CMP, 3, 4, .Absolute⟩]

/-- Entries of `CPU_OPS_CODES` (opcodes.rs lines 44-216), part 3,
in source order. -/
def opcodes_part3 : List OpCode := [
  ⟨0xdd, .CMP, 3, 4, .AbsoluteX⟩, ⟨0xd9, .CMP, 3, 4, .AbsoluteY⟩,
  ⟨0xc1, .CMP, 2, 6, .IndirectX⟩, ⟨0xd1, .CMP, 2, 5, .IndirectY⟩,
  ⟨0xe0, .CPX, 2, 2, .Immediate⟩, ⟨0xe4, .CPX, 2, 3, .ZeroPage⟩,
  ⟨0xec, .CPX, 3, 4, .Absolute⟩, ⟨0xc0, .CPY, 2, 2, .Immediate⟩,
  ⟨0xc4, .CPY, 2, 3, .ZeroPage⟩, ⟨0xcc, .CPY, 3, 4, .Absolute⟩,
  ⟨0xc6, .DEC, 2, 5, .ZeroPage⟩, ⟨0xd6, .DEC, 2, 6, .ZeroPageX⟩,
  ⟨0xce, .DEC, 3, 6, .Absolute⟩, ⟨0xde, .DEC, 3, 7, .AbsoluteX⟩,
  ⟨0xca, .DEX, 1, 2, .NoneAddressing⟩, ⟨0x88, .DEY, 1, 2, .NoneAddressing⟩,
  ⟨0x49, .EOR, 2, 2, .Immediate⟩, ⟨0x45, .EOR, 2, 3, .ZeroPage⟩,
  ⟨0x55, .EOR, 2, 4, .ZeroPageX⟩, ⟨0x4d, .EOR, 3, 4, .Absolute⟩]

/-- Entries of `CPU_OPS_CODES` (opcodes.rs lines 44-216), part 4,
in source order. -/
def opcodes_part4 : List OpCode := [
  ⟨0x5d, .EOR, 3, 4, .AbsoluteX⟩, ⟨0x59, .EOR, 3, 4, .AbsoluteY⟩,
  ⟨0x41, .EOR, 2, 6, .IndirectX⟩, ⟨0x51, .EOR, 2, 5, .IndirectY⟩,
  ⟨0xe6, .INC, 2, 5, .ZeroPage⟩, ⟨0xf6, .INC, 2, 6, .ZeroPageX⟩,
  ⟨0xee, .INC, 3, 6, .Absolute⟩, ⟨0xfe, .INC, 3, 7, .AbsoluteX⟩,
  ⟨0xe8, .INX, 1, 2, .NoneAddressing⟩, ⟨0xc8, .INY, 1, 2, .NoneAddressing⟩,
  ⟨0x4c, .JMP, 3, 3, .Absolute⟩, ⟨0x6c, .JMP, 3, 5, .Indirect⟩,
  ⟨0x20, .JSR, 3, 6, .Absolute⟩, ⟨0xa9, .LDA, 2, 2, .Immediate⟩,
  ⟨0xa5, .LDA, 2, 3, .ZeroPage⟩, ⟨0xb5, .LDA, 2, 4, .ZeroPageX⟩,
  ⟨0xad, .LDA, 3, 4, .Absolute⟩, ⟨0xbd, .LDA, 3, 4, .AbsoluteX⟩,
  ⟨0xb9, .LDA, 3, 4, .AbsoluteY⟩, ⟨0xa1, .LDA, 2, 6, .IndirectX⟩]

/-- Entries of `CPU_OPS_CODES` (opcodes.rs lines 44-216), part 5,
in source order. -/
def opcodes_part5 : List OpCode := [
  ⟨0xb1, .LDA, 2, 5, .IndirectY⟩, ⟨0xa2, .LDX, 2, 2, .Immediate⟩,
  ⟨0xa6, .LDX, 2, 3, .ZeroPage⟩, ⟨0xb6, .LDX, 2, 4, .ZeroPageY⟩,
  ⟨0xae, .LDX, 3, 4, .Absolute⟩, ⟨0xbe, .LDX, 3, 4, .AbsoluteY⟩,
  ⟨0xa0, .LDY, 2, 2, .Immediate⟩, ⟨0xa4, .LDY, 2, 3, .ZeroPage⟩,
  ⟨0xb4, .LDY, 2, 4, .ZeroPageY⟩, ⟨0xac, .LDY, 3, 4, .Absolute⟩,
  ⟨0xbc, .LDY, 3, 4, .AbsoluteY⟩, ⟨0xea, .NOP, 1, 2, .NoneAddressing⟩,
  ⟨0x09, .ORA, 2, 2, .Immediate⟩, ⟨0x05, .ORA, 2, 3, .ZeroPage⟩,
  ⟨0x15, .ORA, 2, 4, .ZeroPageX⟩, ⟨0x0d, .ORA, 3, 4, .Absolute⟩,
  ⟨0x1d, .ORA, 3, 4, .AbsoluteX⟩, ⟨0x19, .ORA, 3, 4, .AbsoluteY⟩,
  ⟨0x01, .ORA, 2, 6, .IndirectX⟩, ⟨0x11, .ORA, 2, 5, .IndirectY⟩]

/-- Entries of `CPU_OPS_CODES` (opcodes.rs lines 44-216), part 6,
in source order. -/
def opcodes_part6 : List OpCode := [
  ⟨0x2a, .ROL, 1, 2, .NoneAddressing⟩, ⟨0x26, .ROL, 2, 5, .ZeroPage⟩,
  ⟨0x36, .ROL, 2, 6, .ZeroPageX⟩, ⟨0x2e, .ROL, 3, 6, .Absolute⟩,
  ⟨0x3e, .ROL, 3, 7, .AbsoluteX⟩, ⟨0x6a, .ROR, 1, 2, .NoneAddressing⟩,
  ⟨0x66, .ROR, 2, 5, .ZeroPage⟩, ⟨0x76, .ROR, 2, 6, .ZeroPageX⟩,
  ⟨0x6e, .ROR, 3, 6, .Absolute⟩, ⟨0x7e, .ROR, 3, 7, .AbsoluteX⟩,
  ⟨0x60, .RTS, 1, 6, .NoneAddressing⟩, ⟨0xe9, .SBC, 2, 2, .Immediate⟩,
  ⟨0xe5, .SBC, 2, 3, .ZeroPage⟩, ⟨0xf5, .SBC, 2, 4, .ZeroPageX⟩,
  ⟨0xed, .SBC, 3, 4, .Absolute⟩, ⟨0xfd, .SBC, 3, 4, .AbsoluteX⟩,
  ⟨0xf9, .SBC, 3, 4, .AbsoluteY⟩, ⟨0xe1, .SBC, 2, 6, .IndirectX⟩,
  ⟨0xf1, .SBC, 2, 5, .IndirectY⟩, ⟨0x38, .SEC, 1, 2, .NoneAddressing⟩]

/-- Entries of `CPU_OPS_CODES` (opcodes.rs lines 44-216), part 7,
in source order. -/
def opcodes_part7 : List OpCode := [
  ⟨0xf8, .SED, 1, 2, .NoneAddressing⟩, ⟨0x78, .SEI, 1, 2, .NoneAddressing⟩,
  ⟨0x85, .STA, 2, 3, .ZeroPage⟩, ⟨0x95, .STA, 2, 4, .ZeroPageX⟩,
  ⟨0x8d, .STA, 3, 4, .Absolute⟩, ⟨0x9d, .STA, 3, 5, .AbsoluteX⟩,
  ⟨0x99, .STA, 3, 5, .AbsoluteY⟩, ⟨0x81, .STA, 2, 6, .IndirectX⟩,
  ⟨0x91, .STA, 2, 6, .IndirectY⟩, ⟨0x86, .STX, 2, 3, .ZeroPage⟩,
  ⟨0x96, .STX, 2, 4, .ZeroPageY⟩, ⟨0x8e, .STX, 3, 4, .Absolute⟩,
  ⟨0x84, .STY, 2, 3, .ZeroPage⟩, ⟨0x94, .STY, 2, 4, .ZeroPageX⟩,
  ⟨0x8c, .STY, 3, 4, .Absolute⟩, ⟨0xaa, .TAX, 1, 2, .NoneAddressing⟩,
  ⟨0xa8, .TAY, 1, 2, .NoneAddressing⟩, ⟨0xba, .TSX, 1, 2, .NoneAddressing⟩,
  ⟨0x8a, .TXA, 1, 2, .NoneAddressing⟩, ⟨0x9a, .TXS, 1, 2, .NoneAddressing⟩]

/-- Entries of `CPU_OPS_CODES` (opcodes.rs lines 44-216), part 8,
in source order. -/
def opcodes_part8 : List OpCode := [
  ⟨0x98, .TYA, 1, 2, .NoneAddressing⟩]

/-- `CPU_OPS_CODES` (opcodes.rs lines 44-216): every populated opcode, in
source order (141 entries; split into parts only to keep elaboration
cheap).  Entry shape: (code, instruction, len, cycles, mode). -/
def CPU_OPS_CODES : List OpCode :=
  opcodes_part1 ++ opcodes_part2 ++ opcodes_part3 ++ opcodes_part4 ++ opcodes_part5 ++ opcodes_part6 ++ opcodes_part7 ++ opcodes_part8

/-- `OPCODES_MAP` (opcodes.rs lines 218-224): lookup by code byte (the
codes in `CPU_OPS_CODES` are pairwise distinct, so the HashMap lookup
equals first-match search). -/
def OPCODES_MAP (code : Nat) : Option OpCode :=
  CPU_OPS_CODES.find? (fun op => op.code == code)

/-- `CPU::read_program_counter` at u8 (mod.rs lines 261-267): read the
byte at the program counter, then advance the counter by 1 (u16 wrap). -/
def CPU.read_program_counter8 (cpu : CPU) : Nat × CPU :=
  (Memory.read8 cpu.memory cpu.program_counter,
   { cpu with program_counter := (cpu.program_counter + 1) % 65536 })

/-- `CPU::read_program_counter` at u16: read the little-endian word at
the program counter, then advance the counter by 2 (u16 wrap).  Total
variant; stands for the source only while the counter is at most 0xFFFE
(see `Memory.read16`). -/
def CPU.read_program_counter16 (cpu : CPU) : Nat × CPU :=
  (Memory.read16 cpu.memory cpu.program_counter,
   { cpu with program_counter := (cpu.program_counter + 2) % 65536 })

/-- `CPU::read_program_counter` at u16 with the memory read's panic
modeled: at counter 0xFFFF the slice `0xFFFF..0x10001` is out of bounds
and the source panics BEFORE the `+=`, so no advance happens (`none`);
otherwise the value and the counter advanced by 2 (u16 wrap). -/
def CPU.read_program_counter16_checked (cpu : CPU) : Option (Nat × CPU) :=
  (Memory.read16_checked cpu.memory cpu.program_counter).map
    (fun v => (v, { cpu with program_counter := (cpu.program_counter + 2) % 65536 }))

/-- `CPU::read_indirect` (mod.rs lines 253-257): little-endian word at a
zero-page pointer whose high byte wraps within the zero page. -/
def CPU.read_indirect (cpu : CPU) (ptr : Nat) : Nat :=
  let lo := Memory.read8 cpu.memory ptr
  let hi := Memory.read8 cpu.memory ((ptr + 1) % 256)
  (hi <<< 8) ||| lo

/-- `CPU::get_operand_address` (mod.rs lines 207-251).  The source match
has no arm for `Indirect` (the mode occurs only on opcode 0x6c JMP,
whose dispatch arm is `todo!()`), modeled here as yielding no address. -/
def CPU.get_operand_address (cpu : CPU) (mode : AddressingMode) :
    Option Nat × CPU :=
  match mode with
  | .Immediate =>
      (some cpu.program_counter,
       { cpu with program_counter := (cpu.program_counter + 1) % 65536 })
  | .ZeroPage =>
      let (b, cpu) := cpu.read_program_counter8
      (some b, cpu)
  | .ZeroPageX =>
      let (b, cpu) := cpu.read_program_counter8
      (some ((b + cpu.index_x) % 256), cpu)
  | .ZeroPageY =>
      let (b, cpu) := cpu.read_program_counter8
      (some ((b + cpu.index_y) % 256), cpu)
  | .Absolute =>
      let (w, cpu) := cpu.read_program_counter16
      (some w, cpu)
  | .AbsoluteX =>
      let (w, cpu) := cpu.read_program_counter16
      (some ((w + cpu.index_x) % 65536), cpu)
  | .AbsoluteY =>
      let (w, cpu) := cpu.read_program_counter16
      (some ((w + cpu.index_y) % 65536), cpu)
  | .Indirect => (none, cpu)
  | .IndirectX =>
      let (b, cpu) := cpu.read_program_counter8
      let ptr := (b + cpu.index_x) % 256
      (some (cpu.read_indirect ptr), cpu)
  | .IndirectY =>
      let (b, cpu) := cpu.read_program_counter8
      (some ((cpu.read_indirect b + cpu.index_y) % 65536), cpu)
  | .Relative =>
      let (b, cpu) := cpu.read_program_counter8
      let offset := if b < 128 then b else b + 0xFF00
      (some ((cpu.program_counter + offset) % 65536), cpu)
  | .NoneAddressing => (none, cpu)

/-- `CPU::branch` (mod.rs lines 189-193): when the condition is met the
resolved "displacement" is ADDED to the program counter
(`self.program_counter += displacement`, u16 wrap); otherwise the
counter is left unchanged. -/
def CPU.branch (cpu : CPU) (displacement : Nat) (condition : Bool) : CPU :=
  if condition then
    { cpu with program_counter := (cpu.program_counter + displacement) % 65536 }
  else cpu

/-- `CPU::compare` (mod.rs lines 197-204). -/
def CPU.compare (cpu : CPU) (value addr : Nat) : CPU :=
  let rhs := Memory.read8 cpu.memory addr
  let result := (((value : Int) - rhs) % 256).toNat
  { cpu with
    status :=
      (({ cpu.status with carry := decide (value ≥ rhs) }).set_zero
        result).set_negative result }

/-- `Instructions::adc` again under its dispatch name; `CPU::and`
(mod.rs lines 343-345). -/
def CPU.and (cpu : CPU) (addr : Nat) : CPU :=
  cpu.set_accumulator (cpu.accumulator &&& Memory.read8 cpu.memory addr)

/-- `CPU::asl` (mod.rs lines 355-371): shift the accumulator (no
address) or the memory byte left by one. -/
def CPU.asl (cpu : CPU) (addr : Option Nat) : CPU :=
  let value :=
    match addr with
    | some a => Memory.read8 cpu.memory a
    | none => cpu.accumulator
  let result := (value <<< 1) % 256
  let cpu1 :=
    { cpu with
      status :=
        (({ cpu.status with carry := decide (value >>> 7 = 1) }).set_negative
          result).set_zero result }
  match addr with
  | some a => { cpu1 with memory := Memory.write8 cpu1.memory a result }
  | none => { cpu1 with accumulator := result }

/-- `CPU::bcc` (mod.rs lines 374-376). -/
def CPU.bcc (cpu : CPU) (displacement : Nat) : CPU :=
  cpu.branch displacement (!cpu.status.carry)

/-- `CPU::bcs` (mod.rs lines 379-381). -/
def CPU.bcs (cpu : CPU) (displacement : Nat) : CPU :=
  cpu.branch displacement cpu.status.carry

/-- `CPU::beq` (mod.rs lines 384-386). -/
def CPU.beq (cpu : CPU) (displacement : Nat) : CPU :=
  cpu.branch displacement cpu.status.zero

/-- `CPU::bit` (mod.rs lines 395-401). -/
def CPU.bit (cpu : CPU) (addr : Nat) : CPU :=
  let value := Memory.read8 cpu.memory addr
  { cpu with
    status :=
      ((cpu.status.set_zero (cpu.accumulator &&& value)).set_overflow
        (decide (value &&& 0b01000000 ≠ 0))).set_negative value }

/-- `CPU::bmi` (mod.rs lines 404-406). -/
def CPU.bmi (cpu : CPU) (displacement : Nat) : CPU :=
  cpu.branch displacement cpu.status.negative

/-- `CPU::bne` (mod.rs lines 409-411). -/
def CPU.bne (cpu : CPU) (displacement : Nat) : CPU :=
  cpu.branch displacement (!cpu.status.zero)

/-- `CPU::bpl` (mod.rs lines 414-416). -/
def CPU.bpl (cpu : CPU) (displacement : Nat) : CPU :=
  cpu.branch displacement (!cpu.status.negative)

/-- `CPU::brk` (mod.rs lines 426-434): push the program counter and the
status bits, load the counter from the interrupt vector, set both Break
flags. -/
def CPU.brk (cpu : CPU) : CPU :=
  let cpu1 := cpu.stack_push16 cpu.program_counter
  let cpu2 := cpu1.stack_push8 cpu1.status.bits
  let cpu3 := { cpu2 with program_counter := Memory.read16 cpu2.memory INTERRUPT }
  let cpu4 := { cpu3 with status := { cpu3.status with break_flag := true } }
  { cpu4 with status := { cpu4.status with break2 := true } }

/-- `CPU::bvc` (mod.rs lines 437-439). -/
def CPU.bvc (cpu : CPU) (displacement : Nat) : CPU :=
  cpu.branch displacement (!cpu.status.overflow)

/-- `CPU::bvs` (mod.rs lines 442-444). -/
def CPU.bvs (cpu : CPU) (displacement : Nat) : CPU :=
  cpu.branch displacement cpu.status.overflow

/-- `CPU::clc` (mod.rs lines 451-453). -/
def CPU.clc (cpu : CPU) : CPU :=
  { cpu with status := { cpu.status with carry := false } }

/-- `CPU::cld` (mod.rs lines 460-462). -/
def CPU.cld (cpu : CPU) : CPU :=
  { cpu with status := { cpu.status with decimal := false } }

/-- `CPU::cli` (mod.rs lines 469-471). -/
def CPU.cli (cpu : CPU) : CPU :=
  { cpu with status := { cpu.status with interrupt_disable := false } }

/-- `CPU::clv` (mod.rs lines 478-480). -/
def CPU.clv (cpu : CPU) : CPU :=
  { cpu with status := { cpu.status with overflow := false } }

/-- `CPU::cmp` (mod.rs lines 489-491). -/
def CPU.cmp (cpu : CPU) (addr : Nat) : CPU :=
  cpu.compare cpu.accumulator addr

/-- `CPU::cpx` (mod.rs lines 500-502). -/
def CPU.cpx (cpu : CPU) (addr : Nat) : CPU :=
  cpu.compare cpu.index_x addr

/-- `CPU::cpy` (mod.rs lines 511-513). -/
def CPU.cpy (cpu : CPU) (addr : Nat) : CPU :=
  cpu.compare cpu.index_y addr

/-- `CPU::eor` (mod.rs lines 522-524). -/
def CPU.eor (cpu : CPU) (addr : Nat) : CPU :=
  cpu.set_accumulator (cpu.accumulator ^^^ Memory.read8 cpu.memory addr)

/-- `CPU::inx` (mod.rs lines 533-535): wrapping increment of X. -/
def CPU.inx (cpu : CPU) : CPU :=
  cpu.set_index_x ((cpu.index_x + 1) % 256)

/-- `CPU::jsr` (mod.rs lines 539-542): push `self.program_counter + 1`
(u16 wrap), then jump to the resolved address. -/
def CPU.jsr (cpu : CPU) (addr : Nat) : CPU :=
  let cpu1 := cpu.stack_push16 ((cpu.program_counter + 1) % 65536)
  { cpu1 with program_counter := addr }

/-- `CPU::lda` (mod.rs lines 550-552). -/
def CPU.lda (cpu : CPU) (addr : Nat) : CPU :=
  cpu.set_accumulator (Memory.read8 cpu.memory addr)

/-- `CPU::ora` (mod.rs lines 561-563). -/
def CPU.ora (cpu : CPU) (addr : Nat) : CPU :=
  cpu.set_accumulator (cpu.accumulator ||| Memory.read8 cpu.memory addr)

/-- `CPU::rts` (mod.rs lines 567-569): pop a 16-bit value into the
program counter. -/
def CPU.rts (cpu : CPU) : CPU :=
  let (v, cpu1) := cpu.stack_pop16
  { cpu1 with program_counter := v }

/-- `CPU::sec` (mod.rs lines 592-594). -/
def CPU.sec (cpu : CPU) : CPU :=
  { cpu with status := { cpu.status with carry := true } }

/-- `CPU::sed` (mod.rs lines 601-603). -/
def CPU.sed (cpu : CPU) : CPU :=
  { cpu with status := { cpu.status with decimal := true } }

/-- `CPU::sei` (mod.rs lines 610-612). -/
def CPU.sei (cpu : CPU) : CPU :=
  { cpu with status := { cpu.status with interrupt_disable := true } }

/-- `CPU::sta` (mod.rs lines 615-617). -/
def CPU.sta (cpu : CPU) (addr : Nat) : CPU :=
  { cpu with memory := Memory.write8 cpu.memory addr cpu.accumulator }

/-- `CPU::stx` (mod.rs lines 620-622). -/
def CPU.stx (cpu : CPU) (addr : Nat) : CPU :=
  { cpu with memory := Memory.write8 cpu.memory addr cpu.index_x }

/-- `CPU::sty` (mod.rs lines 625-627). -/
def CPU.sty (cpu : CPU) (addr : Nat) : CPU :=
  { cpu with memory := Memory.write8 cpu.memory addr cpu.index_y }

/-- `CPU::tax` (mod.rs lines 635-637). -/
def CPU.tax (cpu : CPU) : CPU :=
  cpu.set_index_x cpu.accumulator

/-- `CPU::tay` (mod.rs lines 645-647). -/
def CPU.tay (cpu : CPU) : CPU :=
  cpu.set_index_y cpu.accumulator

/-- `CPU::tsx` (mod.rs lines 655-657). -/
def CPU.tsx (cpu : CPU) : CPU :=
  cpu.set_index_x cpu.stack_pointer

/-- `CPU::txa` (mod.rs lines 665-667). -/
def CPU.txa (cpu : CPU) : CPU :=
  cpu.set_accumulator cpu.index_x

/-- `CPU::txs` (mod.rs lines 670-672). -/
def CPU.txs (cpu : CPU) : CPU :=
  { cpu with stack_pointer := cpu.index_x }

/-- `CPU::tya` (mod.rs lines 680-682). -/
def CPU.tya (cpu : CPU) : CPU :=
  cpu.set_accumulator cpu.index_y

/-- `CPU::with_operand` (mod.rs lines 314-319): run the callback with
the resolved address, or panic (`expect("Required operand is missing")`,
modeled as `none`) when there is none. -/
def CPU.with_operand (f : CPU → Nat → CPU) (addr : Option Nat) (cpu : CPU) :
    Option CPU :=
  match addr with
  | some a => some (f cpu a)
  | none => none

/-- Whether `CPU::run`'s dispatch (mod.rs lines 102-159) has a real arm
for a mnemonic: `false` exactly for the 17 arms written `todo!()`
(DEC, DEX, DEY, INC, INY, JMP, LDX, LDY, LSR, NOP, PHA, PHP, PLA, PLP,
ROL, ROR, RTI). -/
def implemented : Instruction → Bool
  | .DEC | .DEX | .DEY | .INC | .INY | .JMP | .LDX | .LDY | .LSR | .NOP
  | .PHA | .PHP | .PLA | .PLP | .ROL | .ROR | .RTI => false
  | _ => true

/-- The dispatch `match opcode.instruction` of `CPU::run` (mod.rs lines
102-159): one arm per mnemonic; `todo!()` arms and the missing-operand
panic are `none`. -/
def execInstr (cpu : CPU) (i : Instruction) (addr : Option Nat) : Option CPU :=
  match i with
  | .ADC => CPU.with_operand CPU.adc addr cpu
  | .AND => CPU.with_operand CPU.and addr cpu
  | .ASL => some (cpu.asl addr)
  | .BCC => CPU.with_operand CPU.bcc addr cpu
  | .BCS => CPU.with_operand CPU.bcs addr cpu
  | .BEQ => CPU.with_operand CPU.beq addr cpu
  | .BIT => CPU.with_operand CPU.bit addr cpu
  | .BMI => CPU.with_operand CPU.bmi addr cpu
  | .BNE => CPU.with_operand CPU.bne addr cpu
  | .BPL => CPU.with_operand CPU.bpl addr cpu
  | .BRK => some cpu.brk
  | .BVC => CPU.with_operand CPU.bvc addr cpu
  | .BVS => CPU.with_operand CPU.bvs addr cpu
  | .CLC => some cpu.clc
  | .CLD => some cpu.cld
  | .CLI => some cpu.cli
  | .CLV => some cpu.clv
  | .CMP => CPU.with_operand CPU.cmp addr cpu
  | .CPX => CPU.with_operand CPU.cpx addr cpu
  | .CPY => CPU.with_operand CPU.cpy addr cpu
  | .DEC => none
  | .DEX => none
  | .DEY => none
  | .EOR => CPU.with_operand CPU.eor addr cpu
  | .INC => none
  | .INX => some cpu.inx
  | .INY => none
  | .JMP => none
  | .JSR => CPU.with_operand CPU.jsr addr cpu
  | .LDA => CPU.with_operand CPU.lda addr cpu
  | .LDX => none
  | .LDY => none
  | .LSR => none
  | .NOP => none
  | .ORA => CPU.with_operand CPU.ora addr cpu
  | .PHA => none
  | .PHP => none
  | .PLA => none
  | .PLP => none
  | .ROL => none
  | .ROR => none
  | .RTI => none
  | .RTS => some cpu.rts
  | .SBC => CPU.with_operand CPU.sbc addr cpu
  | .SEC => some cpu.sec
  | .SED => some cpu.sed
  | .SEI => some cpu.sei
  | .STA => CPU.with_operand CPU.sta addr cpu
  | .STX => CPU.with_operand CPU.stx addr cpu
  | .STY => CPU.with_operand CPU.sty addr cpu
  | .TAX => some cpu.tax
  | .TAY => some cpu.tay
  | .TSX => some cpu.tsx
  | .TXA => some cpu.txa
  | .TXS => some cpu.txs
  | .TYA => some cpu.tya

/-- One iteration of the `loop` in `CPU::run` (mod.rs lines 90-166):
fetch the code byte, look it up (absence panics: `none`), resolve the
operand address, dispatch (a `todo!()` arm or missing operand panics:
`none`), and report whether the loop then returns — which the source
decides by `if self.program_counter == 0 { return; }` (line 162), not by
whether the instruction was BRK. -/
def CPU.runStep (cpu : CPU) : Option (CPU × Bool) :=
  let (code, cpu) := cpu.read_program_counter8
  match OPCODES_MAP code with
  | none => none
  | some opcode =>
    let (addr, cpu) := cpu.get_operand_address opcode.mode
    match execInstr cpu opcode.instruction addr with
    | none => none
    | some cpu => some (cpu, decide (cpu.program_counter = 0))

/-- A loaded state about to execute BRK (opcode 0x00) whose interrupt
vector 0xFFFE/0xFFFF holds the nonzero address 0x1234. -/
def brk_demo_cpu : CPU :=
  { CPU.default with
    program_counter := 0x8000
    memory := fun a =>
      if a = 0x8000 then 0x00
      else if a = 0xFFFE then 0x34
      else if a = 0xFFFF then 0x12
      else 0 }

/-- A state about to execute RTS (opcode 0x60) with the 16-bit value 0
on the stack, so the pop sets the program counter to 0. -/
def rts_demo_cpu : CPU :=
  { CPU.default with
    program_counter := 0x8000
    stack_pointer := 2
    memory := fun a => if a = 0x8000 then 0x60 else 0 }

set_option maxRecDepth 10000 in
/-- Claim C1 (code bug evidence): the loop in `CPU::run` exits on the
`program_counter == 0` sentinel, not on BRK.  Executing BRK in
`brk_demo_cpu` (the fetched opcode is BRK) does NOT halt the loop — the
interrupt vector is 0x1234, so the counter is nonzero and the loop
continues — while executing RTS in `rts_demo_cpu` (not BRK) DOES halt
the loop because the popped counter is 0. -/
theorem run_halts_on_pc_zero_not_on_brk :
    (OPCODES_MAP (Memory.read8 brk_demo_cpu.memory
        brk_demo_cpu.program_counter)).map (fun op => op.instruction) =
      some Instruction.BRK ∧
    brk_demo_cpu.runStep.map (fun p => p.2) = some false ∧
    brk_demo_cpu.runStep.map (fun p => p.1.program_counter) = some 0x1234 ∧
    (OPCODES_MAP (Memory.read8 rts_demo_cpu.memory
        rts_demo_cpu.program_counter)).map (fun op => op.instruction) =
      some Instruction.RTS ∧
    rts_demo_cpu.runStep.map (fun p => p.2) = some true := by
  decide

set_option maxRecDepth 10000 in
/-- Claim C2 (code bug evidence): the table has 141 entries but does not
cover all 56 mnemonics — the documented codes 0x4a (LSR accumulator) and
0x48 (PHA) are absent — and a code it does contain, 0xc6 (DEC zero
page), dispatches to a `todo!()` arm: `execInstr` yields no state
(a panic), and `implemented` is false for DEC and the 16 other
`todo!()` mnemonics, several of which the repository's own tests
exercise (test.rs: DEC, DEX, DEY, INC, INY, JMP, LSR, PHA, PHP, PLA,
PLP, RTI, ROL, ROR). -/
theorem opcode_table_and_dispatch_incomplete :
    (OPCODES_MAP 0xc6).map (fun op => op.instruction) = some Instruction.DEC ∧
    implemented Instruction.DEC = false ∧
    (execInstr CPU.default Instruction.DEC (some 0x10)).isNone = true ∧
    OPCODES_MAP 0x4a = none ∧
    OPCODES_MAP 0x48 = none ∧
    CPU_OPS_CODES.length = 141 ∧
    (CPU_OPS_CODES.filter (fun op => !(implemented op.instruction))).length ≠ 0 := by
  decide

/-- A state about to execute BCC (opcode 0x90) with displacement byte
0x02 and the carry flag clear (default status), so the branch is taken.
The Relative-mode resolved target is 0x8002 + 2 = 0x8004. -/
def bcc_demo_cpu : CPU :=
  { CPU.default with
    program_counter := 0x8000
    memory := fun a =>
      if a = 0x8000 then 0x90 else if a = 0x8001 then 0x02 else 0 }

/-- The same state with the carry flag set, so the branch is not taken. -/
def bcc_demo_cpu_carry : CPU :=
  { bcc_demo_cpu with status := { Status.default with carry := true } }

set_option maxRecDepth 10000 in
/-- Claim C3 (code bug evidence): when a branch is taken,
`CPU::branch` ADDS the Relative-mode resolved target address to the
program counter instead of setting the counter to it: from 0x8000 with
displacement +2 the resolved target is 0x8004, but the taken BCC leaves
the counter at (0x8002 + 0x8004) mod 2^16 = 0x0006, not 0x8004.  The
not-taken case does leave the counter at 0x8002 as the claim says. -/
theorem branch_adds_target_to_pc :
    bcc_demo_cpu.runStep.map (fun p => p.1.program_counter) = some 0x0006 ∧
    bcc_demo_cpu.runStep.map (fun p => p.1.program_counter) ≠ some 0x8004 ∧
    bcc_demo_cpu_carry.runStep.map (fun p => p.1.program_counter) =
      some 0x8002 := by
  decide

/-- A state about to execute JSR 0x9000 (opcode 0x20, absolute): after
the operand fetch the program counter is 0x8003. -/
def jsr_demo_cpu : CPU :=
  { CPU.default with
    program_counter := 0x8000
    memory := fun a =>
      if a = 0x8000 then 0x20
      else if a = 0x8001 then 0x00
      else if a = 0x8002 then 0x90
      else 0 }

set_option maxRecDepth 10000 in
/-- Claim C7 (code bug evidence): `CPU::jsr` pushes
`self.program_counter + 1` — with the counter at 0x8003 after the
operand fetch it pushes 0x8004 (bytes 0x04/0x80 at the stack addresses
0xFD/0xFE) — whereas the claim requires pushing 0x8003 - 1 = 0x8002, and
even the source's own doc comment ("the address of the next sequential
instruction") would require 0x8003.  The jump itself and RTS's
pop-into-the-counter behave as claimed. -/
theorem jsr_pushes_pc_plus_one :
    jsr_demo_cpu.runStep.map (fun p => p.1.program_counter) = some 0x9000 ∧
    jsr_demo_cpu.runStep.map (fun p => p.1.memory 0xFD) = some 0x04 ∧
    jsr_demo_cpu.runStep.map (fun p => p.1.memory 0xFE) = some 0x80 ∧
    jsr_demo_cpu.runStep.map (fun p => p.1.memory 0xFD) ≠ some 0x02 ∧
    (rts_demo_cpu.rts).program_counter = (rts_demo_cpu.stack_pop16).1 := by
  decide

/-- Claim C9 counterexample: at program counter 0xFFFF the two-byte
operand fetch does not wrap to 0x0000 — the u16 read slices the range
0xFFFF..0x10001 of the 65536-byte array (0xFFFF + 2 > MEMORY_SIZE),
which panics in every build mode before the counter advance, so this
advance is a failure rather than a wrap. -/
theorem word_operand_fetch_at_ffff_fails :
    ({ CPU.default with program_counter := 0xFFFF } :
        CPU).read_program_counter16_checked.isNone = true ∧
    0xFFFF + 2 > MEMORY_SIZE := by
  decide

/-- Claim C9 as amended: the program counter always denotes an address
below 65536; the opcode fetch, the one-byte operand fetch and the
Immediate-mode increment wrap at 16 bits, with 0xFFFF advancing to
0x0000; the two-byte operand fetch wraps likewise whenever the counter
is at most 0xFFFE, but at 0xFFFF the memory read fails (out-of-bounds
slice panic) before any advance instead of wrapping. -/
theorem program_counter_wrap_or_panic (cpu : CPU)
    (h : cpu.program_counter < 65536) :
    (cpu.read_program_counter8).2.program_counter =
      (cpu.program_counter + 1) % 65536 ∧
    (cpu.read_program_counter8).2.program_counter < 65536 ∧
    (cpu.get_operand_address AddressingMode.Immediate).2.program_counter =
      (cpu.program_counter + 1) % 65536 ∧
    (cpu.get_operand_address AddressingMode.Immediate).2.program_counter < 65536 ∧
    (cpu.program_counter ≤ 0xFFFE →
      cpu.read_program_counter16_checked.map (fun p => p.2.program_counter) =
        some ((cpu.program_counter + 2) % 65536)) ∧
    (cpu.program_counter = 0xFFFF →
      (cpu.read_program_counter8).2.program_counter = 0 ∧
      cpu.read_program_counter16_checked = none) := by
  refine ⟨rfl, Nat.mod_lt _ (by decide), rfl, Nat.mod_lt _ (by decide), ?_, ?_⟩
  · intro hle
    have hin : cpu.program_counter + 2 ≤ MEMORY_SIZE := by
      unfold MEMORY_SIZE; omega
    simp [CPU.read_program_counter16_checked, Memory.read16_checked, hin]
  · intro hpc
    have hout : ¬ cpu.program_counter + 2 ≤ MEMORY_SIZE := by
      unfold MEMORY_SIZE; omega
    exact ⟨by simp [CPU.read_program_counter8, hpc],
      by simp [CPU.read_program_counter16_checked, Memory.read16_checked, hout]⟩

/-- Witness for the amended C9 at the two concrete counters that matter:
at 0xFFFE the word fetch wraps the counter to 0x0000, and at 0xFFFF the
byte fetch wraps to 0x0000 while the word fetch fails. -/
theorem program_counter_wrap_or_panic_witness :
    ({ CPU.default with program_counter := 0xFFFE } :
        CPU).read_program_counter16_checked.map
        (fun p => p.2.program_counter) = some ((0xFFFE + 2) % 65536) ∧
    ({ CPU.default with program_counter := 0xFFFF } :
        CPU).read_program_counter8.2.program_counter = 0 ∧
    ({ CPU.default with program_counter := 0xFFFF } :
        CPU).read_program_counter16_checked = none :=
  ⟨(program_counter_wrap_or_panic
      { CPU.default with program_counter := 0xFFFE } (by decide)).2.2.2.2.1
      (by decide),
   ((program_counter_wrap_or_panic
      { CPU.default with program_counter := 0xFFFF } (by decide)).2.2.2.2.2
      rfl).1,
   ((program_counter_wrap_or_panic
      { CPU.default with program_counter := 0xFFFF } (by decide)).2.2.2.2.2
      rfl).2⟩

/-- Claim C10: `CPU::reset` rebuilds the CPU from `Default::default()`,
which replaces the public `mode` field with `Mode::Nes2A03` — so a CPU
in `Mos6502` mode is in `Nes2A03` mode after reset, and any subsequent
`load` copies the program to the ROM origin 0x8000, not 0x0600. -/
theorem reset_replaces_mode_with_default (cpu : CPU)
    (h : cpu.mode = Mode.Mos6502) :
    cpu.reset.mode = Mode.Nes2A03 ∧
    cpu.reset.mode.program_rom = 0x8000 ∧
    cpu.mode.program_rom = 0x0600 ∧
    ∀ program, cpu.reset.load program =
      { cpu.reset with
        memory := Memory.load cpu.reset.memory program 0x8000 } := by
  refine ⟨rfl, rfl, by rw [h]; rfl, fun program => rfl⟩

/-- Witness for C10 at a concrete state: the default CPU switched to
`Mos6502` mode is back in `Nes2A03` mode with ROM origin 0x8000 after
reset. -/
theorem reset_replaces_mode_with_default_witness :
    ({ CPU.default with mode := Mode.Mos6502 } : CPU).reset.mode =
      Mode.Nes2A03 ∧
    ({ CPU.default with mode := Mode.Mos6502 } : CPU).reset.mode.program_rom =
      0x8000 :=
  ⟨(reset_replaces_mode_with_default
      { CPU.default with mode := Mode.Mos6502 } rfl).1,
   (reset_replaces_mode_with_default
      { CPU.default with mode := Mode.Mos6502 } rfl).2.1⟩
